import Mathlib

/-!
Shallow embedding of the Elasticsearch RAG MCP server (src/index.ts).
The server exposes three tools — search_docs, summarize_results, cite_sources —
over a process-wide `Map<string, SearchResult[]>` session store.  The two
external collaborators (the Elasticsearch client and the OpenAI completion
call) are modelled as explicit oracle arguments; each handler additionally
returns the list of oracle requests it issued, so that claims about "no
oracle call" are directly observable.  JavaScript numbers that carry scores
are modelled as rationals; `Date.now()` is an explicit `now : Nat` argument.
-/

namespace RagMcp

/-- `Document` as validated by `DocumentSchema` (id, title, content, tags). -/
structure Document where
  id : Int
  title : String
  content : String
  tags : List String
  deriving DecidableEq, Repr

/-- `SearchResult` as validated by `SearchResultSchema`: a document plus score. -/
structure SearchResult where
  id : Int
  title : String
  content : String
  tags : List String
  score : ℚ
  deriving DecidableEq, Repr

/-- One Elasticsearch hit: `hit._source` plus the optional `hit._score`. -/
structure Hit where
  source : Document
  score : Option ℚ
  deriving DecidableEq, Repr

/-- The shape of `response.hits.total`: a plain number, an object with a
`value` field, or absent (`undefined`). -/
inductive TotalField where
  | num (n : Int)
  | obj (value : Int)
  | absent
  deriving DecidableEq, Repr

/-- The part of the Elasticsearch response the handler reads:
`response.hits.hits` and `response.hits.total`. -/
structure HitsResponse where
  hits : List Hit
  total : TotalField
  deriving DecidableEq, Repr

/-- `searchContextStore : Map<string, SearchResult[]>`, modelled as an
association list with JS `Map` semantics (`set` replaces in place). -/
def Store := List (String × List SearchResult)

instance : DecidableEq Store := by
  unfold Store
  infer_instance

/-- `Map.get`: the value under the key, if present. -/
def Store.get : Store → String → Option (List SearchResult)
  | [], _ => none
  | (k, v) :: rest, key => if k = key then some v else Store.get rest key

/-- `Map.set`: replace the binding in place if the key exists, else append. -/
def Store.set : Store → String → List SearchResult → Store
  | [], key, v => [(key, v)]
  | (k, w) :: rest, key, v =>
      if k = key then (key, v) :: rest else (k, w) :: Store.set rest key v

theorem Store.get_set (s : Store) (k k' : String) (v : List SearchResult) :
    (Store.set s k v).get k' = if k = k' then some v else s.get k' := by
  induction s with
  | nil =>
      by_cases h : k = k' <;> simp [Store.set, Store.get, h]
  | cons hd tl ih =>
      obtain ⟨k0, v0⟩ := hd
      by_cases h0 : k0 = k
      · subst h0
        by_cases h : k0 = k' <;> simp [Store.set, Store.get, h]
      · by_cases h : k = k'
        · subst h
          simp [Store.set, Store.get, h0, ih]
        · by_cases h1 : k0 = k' <;>
            simp [Store.set, Store.get, h0, h1, ih, h, Ne.symm h]

/-- `hit._score ?? 0`: a missing score defaults to 0. -/
def hitToResult (h : Hit) : SearchResult :=
  { id := h.source.id
    title := h.source.title
    content := h.source.content
    tags := h.source.tags
    score := h.score.getD 0 }

/-- `typeof total === "number" ? total : total?.value ?? 0`. -/
def totalHits : TotalField → Int
  | .num n => n
  | .obj v => v
  | .absent => 0

/-- The id minted from the clock: `` `session_${Date.now()}` ``. -/
def mintedId (now : Nat) : String := "session_" ++ toString now

/-- `session_id || minted`: the caller-supplied id is used unless it is
absent or the empty string (both are falsy in JS). -/
def effectiveId (session_id : Option String) (now : Nat) : String :=
  match session_id with
  | some s => if s = "" then mintedId now else s
  | none => mintedId now

/-- Model of JS `s.substring(0, n)`: the first `n` characters. -/
def jsSubstring (s : String) (n : Nat) : String := ⟨s.data.take n⟩

/-- Two-character decimal rendering of `m` (for `m < 100`). -/
def pad2 (m : Nat) : String := ⟨[Nat.digitChar (m / 10), Nat.digitChar (m % 10)]⟩

/-- Model of JS `x.toFixed(2)`: round to the nearest multiple of 1/100
(ties toward the larger value, as ECMA-262 prescribes) and print with
exactly two digits after the decimal point.  The rounded numerator
`⌊q * 100 + 1/2⌋` is computed on `q.num`/`q.den` directly. -/
def toFixed2 (q : ℚ) : String :=
  let n : Int := Int.fdiv (q.num * 200 + q.den) (2 * q.den)
  if n < 0 then
    "-" ++ toString ((-n).toNat / 100) ++ "." ++ pad2 ((-n).toNat % 100)
  else
    toString (n.toNat / 100) ++ "." ++ pad2 (n.toNat % 100)

/-- JS `Array.prototype.map` with the index callback argument: `f` receives
the element together with its position, counting from `i`. -/
def mapWithIdx (f : Nat → α → β) (i : Nat) : List α → List β
  | [] => []
  | a :: as => f i a :: mapWithIdx f (i + 1) as

theorem get?_mapWithIdx (f : Nat → α → β) (l : List α) :
    ∀ k i, (mapWithIdx f k l).get? i = (l.get? i).map (f (k + i)) := by
  induction l with
  | nil => intro k i; simp [mapWithIdx]
  | cons a as ih =>
      intro k i
      cases i with
      | zero => simp [mapWithIdx]
      | succ j =>
          have h : k + 1 + j = k + (j + 1) := by omega
          simp only [mapWithIdx, List.get?]
          rw [ih (k + 1) j, h]

theorem length_mapWithIdx (f : Nat → α → β) (l : List α) :
    ∀ k, (mapWithIdx f k l).length = l.length := by
  induction l with
  | nil => intro k; rfl
  | cons a as ih => intro k; simp [mapWithIdx, ih]

/-- One line of the search narrative:
`` `[${i + 1}] ${r.title} (score: ${r.score.toFixed(2)})\n${r.content.substring(0, 200)}...` ``. -/
def searchLine (i : Nat) (r : SearchResult) : String :=
  "[" ++ toString (i + 1) ++ "] " ++ r.title ++ " (score: " ++ toFixed2 r.score
    ++ ")\n" ++ jsSubstring r.content 200 ++ "..."

/-- `contentText`: the per-result lines joined with `"\n\n"`. -/
def contentText (rs : List SearchResult) : String :=
  String.intercalate "\n\n" (mapWithIdx searchLine 0 rs)

/-- The narrative of a successful search:
`` `Found ${results.length} relevant documents:\n\n${contentText}` ``. -/
def searchText (rs : List SearchResult) : String :=
  "Found " ++ toString rs.length ++ " relevant documents:\n\n" ++ contentText rs

/-- The `structuredContent` of a successful search_docs call. -/
structure SearchStructured where
  results : List SearchResult
  total : Int
  session_id : String
  deriving DecidableEq, Repr

/-- A search_docs response: either `{content, isError: true}` or
`{content, structuredContent}`. -/
inductive SearchOutcome where
  | error (message : String)
  | success (text : String) (structured : SearchStructured)
  deriving DecidableEq, Repr

/-- The `structuredContent` of a search response, if the call succeeded. -/
def SearchOutcome.structured? : SearchOutcome → Option SearchStructured
  | .error _ => none
  | .success _ s => some s

/-- Whether the response carries `isError: true`. -/
def SearchOutcome.isError : SearchOutcome → Bool
  | .error _ => true
  | .success _ _ => false

/-- A request to the retrieval oracle, as the handler issues it:
`_client.search({index, size, query})` (the query DSL is a fixed function
of these fields). -/
structure SearchRequest where
  index : String
  size : Int
  query : String
  deriving DecidableEq, Repr

/-- The search_docs handler.  `oracle` is the Elasticsearch client call,
which either throws (with a message) or returns hits; `now` is `Date.now()`.
Returns the response, the store after the call, and the list of oracle
requests issued. -/
def searchDocs (query : String) (max_results : Option Int) (session_id : Option String)
    (oracle : SearchRequest → Except String HitsResponse) (now : Nat) (store : Store) :
    SearchOutcome × Store × List SearchRequest :=
  if query = "" then
    (.error "Query parameter is required", store, [])
  else
    let req : SearchRequest := ⟨"documents", max_results.getD 5, query⟩
    match oracle req with
    | .error e => (.error ("Error searching documents: " ++ e), store, [req])
    | .ok resp =>
        let results := resp.hits.map hitToResult
        let contextId := effectiveId session_id now
        (.success (searchText results)
            ⟨results, totalHits resp.total, contextId⟩,
          store.set contextId results, [req])

/-- The shared "call search_docs first" error text of summarize and cite. -/
def sessionNotFoundText : String :=
  "No search results found for this session. Please call search_docs first."

/-- The fixed system instruction of the summarize prompt. -/
def synthSystemText : String :=
  "You are a helpful assistant that answers questions based on provided documents. Synthesize information from the documents to answer the user\x27s question accurately and concisely. If the documents don\x27t contain relevant information, say so."

/-- The prompt context: the first five stored results rendered as
`` `[Document ${i + 1}: ${r.title}]\n${r.content}` `` joined by `"\n\n---\n\n"`. -/
def summaryContext (rs : List SearchResult) : String :=
  String.intercalate "\n\n---\n\n"
    (mapWithIdx
      (fun i r => "[Document " ++ toString (i + 1) ++ ": " ++ r.title ++ "]\n" ++ r.content)
      0 (rs.take 5))

/-- `Math.min(Math.ceil(max_length / 4), 1000)`; the ceiling of
`max_length / 4` is `⌈max_length / 4⌉ = (max_length + 3).fdiv 4`. -/
def synthMaxTokens (max_length : Int) : Int :=
  min (Int.fdiv (max_length + 3) 4) 1000

/-- A request to the synthesis oracle: the fixed system message, the user
message built from the question and the context, and the token budget
(`temperature` is the constant 0.3 and is omitted). -/
structure SynthRequest where
  system : String
  user : String
  maxTokens : Int
  deriving DecidableEq, Repr

/-- The user message: `` `Question: ${question}\n\nRelevant Documents:\n${context}` ``. -/
def synthUserText (question context : String) : String :=
  "Question: " ++ question ++ "\n\nRelevant Documents:\n" ++ context

/-- The `structuredContent` of a successful summarize_results call. -/
structure SummarizeStructured where
  summary : String
  sources_used : Nat
  deriving DecidableEq, Repr

/-- A summarize_results response. -/
inductive SummarizeOutcome where
  | error (message : String)
  | success (text : String) (structured : SummarizeStructured)
  deriving DecidableEq, Repr

/-- Whether the summarize response carries `isError: true`. -/
def SummarizeOutcome.isError : SummarizeOutcome → Bool
  | .error _ => true
  | .success _ _ => false

/-- The summarize_results handler.  `synth` is the OpenAI completion call:
it either throws or returns the (JS-string-coerced) value of
`completion.choices[0]?.message?.content`; the `|| "No summary generated."`
fallback in the source is dead because the prefixed string is never empty.
Returns the response, the store (never mutated), and the oracle requests
issued. -/
def summarizeResults (session_id question : String) (max_length : Option Int)
    (synth : SynthRequest → Except String String) (store : Store) :
    SummarizeOutcome × Store × List SynthRequest :=
  if session_id = "" ∨ question = "" then
    (.error "Both session_id and question parameters are required", store, [])
  else
    match store.get session_id with
    | none => (.error sessionNotFoundText, store, [])
    | some rs =>
        if rs = [] then (.error sessionNotFoundText, store, [])
        else
          let req : SynthRequest :=
            ⟨synthSystemText, synthUserText question (summaryContext rs),
              synthMaxTokens (max_length.getD 500)⟩
          match synth req with
          | .error e => (.error ("Error generating summary: " ++ e), store, [req])
          | .ok content =>
              let summary := "AI generated summary: " ++ content
              (.success summary ⟨summary, rs.length⟩, store, [req])

/-- `Citation`: the projection `{id, title, tags, relevance_score}`. -/
structure Citation where
  id : Int
  title : String
  tags : List String
  relevance_score : ℚ
  deriving DecidableEq, Repr

/-- `r ↦ {id, title, tags, relevance_score: r.score}`. -/
def toCitation (r : SearchResult) : Citation :=
  { id := r.id, title := r.title, tags := r.tags, relevance_score := r.score }

/-- One line of the citation narrative:
`` `[${i + 1}] ID: ${c.id}, Title: "${c.title}", Tags: ${c.tags.join(", ")}, Score: ${c.relevance_score.toFixed(2)}` ``. -/
def citationLine (i : Nat) (c : Citation) : String :=
  "[" ++ toString (i + 1) ++ "] ID: " ++ toString c.id ++ ", Title: \"" ++ c.title
    ++ "\", Tags: " ++ String.intercalate ", " c.tags ++ ", Score: "
    ++ toFixed2 c.relevance_score

/-- The narrative of a successful cite_sources call. -/
def citeText (cs : List Citation) : String :=
  "Sources used (" ++ toString cs.length ++ "):\n\n"
    ++ String.intercalate "\n" (mapWithIdx citationLine 0 cs)

/-- A cite_sources response. -/
inductive CiteOutcome where
  | error (message : String)
  | success (text : String) (citations : List Citation)
  deriving DecidableEq, Repr

/-- Whether the cite response carries `isError: true`. -/
def CiteOutcome.isError : CiteOutcome → Bool
  | .error _ => true
  | .success _ _ => false

/-- The citations of a cite response, if the call succeeded. -/
def CiteOutcome.citations? : CiteOutcome → Option (List Citation)
  | .error _ => none
  | .success _ cs => some cs

/-- The cite_sources handler.  It makes no oracle call and never mutates
the store, so it is a pure function of the session id and the store. -/
def citeSources (session_id : String) (store : Store) : CiteOutcome :=
  if session_id = "" then .error "session_id parameter is required"
  else
    match store.get session_id with
    | none => .error sessionNotFoundText
    | some rs =>
        if rs = [] then .error sessionNotFoundText
        else
          let citations := rs.map toCitation
          .success (citeText citations) citations

/-! ### Helper lemmas -/

theorem searchDocs_ok (q : String) (mr : Option Int) (sid : Option String)
    (resp : HitsResponse) (now : Nat) (store : Store) (hq : q ≠ "") :
    searchDocs q mr sid (fun _ => Except.ok resp) now store
      = (.success (searchText (resp.hits.map hitToResult))
            ⟨resp.hits.map hitToResult, totalHits resp.total, effectiveId sid now⟩,
          store.set (effectiveId sid now) (resp.hits.map hitToResult),
          [⟨"documents", mr.getD 5, q⟩]) := by
  simp [searchDocs, hq]

theorem mintedId_ne_empty (now : Nat) : mintedId now ≠ "" := by
  intro h
  have hlen := congrArg String.length h
  simp [mintedId, String.length_append] at hlen
  exact absurd hlen.1 (by decide)

theorem citeSources_congr (sid : String) (s s' : Store)
    (h : s.get sid = s'.get sid) : citeSources sid s = citeSources sid s' := by
  unfold citeSources
  rw [h]

theorem summarizeResults_congr (sid question : String) (ml : Option Int)
    (synth : SynthRequest → Except String String) (s s' : Store)
    (h : s.get sid = s'.get sid) :
    (summarizeResults sid question ml synth s).1
        = (summarizeResults sid question ml synth s').1
      ∧ (summarizeResults sid question ml synth s).2.2
        = (summarizeResults sid question ml synth s').2.2 := by
  unfold summarizeResults
  rw [h]
  by_cases h0 : sid = "" ∨ question = ""
  · simp [h0]
  · simp only [if_neg h0]
    cases hg : s'.get sid with
    | none => exact ⟨rfl, rfl⟩
    | some rs =>
        by_cases hrs : rs = []
        · simp [hrs]
        · simp only [if_neg hrs]
          cases synth _ <;> exact ⟨rfl, rfl⟩

/-! ### Concrete fixtures used by witnesses and counterexamples -/

def docA : Document := ⟨1, "Alpha", "alpha content", ["x"]⟩

def docB : Document := ⟨2, "Beta", "beta content", ["y", "z"]⟩

def hitA : Hit := ⟨docA, some 2⟩

def hitB : Hit := ⟨docB, none⟩

def respAB : HitsResponse := ⟨[hitA, hitB], .num 7⟩

/-! ### C1 -/

/-- C1 (amended): for every non-empty query, when the oracle answers with
`resp` the structured result holds exactly the hits of the oracle, mapped to
`ScoredDocument`s in oracle order, and `total` is the reported
reported count (plain number or object value), falling back to 0 — not to
the number of returned results — when the oracle reports no count. -/
theorem search_results_order_and_total
    (q : String) (mr : Option Int) (sid : Option String) (resp : HitsResponse)
    (now : Nat) (store : Store) (hq : q ≠ "") :
    (searchDocs q mr sid (fun _ => Except.ok resp) now store).1.structured?
        = some ⟨resp.hits.map hitToResult, totalHits resp.total, effectiveId sid now⟩
      ∧ (resp.hits.map hitToResult).length = resp.hits.length
      ∧ (∀ i, (resp.hits.map hitToResult).get? i = (resp.hits.get? i).map hitToResult)
      ∧ totalHits TotalField.absent = 0
      ∧ (∀ n, totalHits (TotalField.num n) = n)
      ∧ (∀ v, totalHits (TotalField.obj v) = v) := by
  refine ⟨?_, by simp, fun i => by simp, rfl, fun n => rfl, fun v => rfl⟩
  rw [searchDocs_ok q mr sid resp now store hq]
  rfl

theorem search_results_order_and_total_witness :
    (searchDocs "vector" (some 2) (some "s1") (fun _ => Except.ok respAB) 0 []).1.structured?
        = some ⟨respAB.hits.map hitToResult, totalHits respAB.total, effectiveId (some "s1") 0⟩
      ∧ (respAB.hits.map hitToResult).length = respAB.hits.length
      ∧ (∀ i, (respAB.hits.map hitToResult).get? i = (respAB.hits.get? i).map hitToResult)
      ∧ totalHits TotalField.absent = 0
      ∧ (∀ n, totalHits (TotalField.num n) = n)
      ∧ (∀ v, totalHits (TotalField.obj v) = v) :=
  search_results_order_and_total "vector" (some 2) (some "s1") respAB 0 [] (by decide)

def c1NoTotalRun : SearchOutcome × Store × List SearchRequest :=
  searchDocs "vector" (some 5) (some "s1")
    (fun _ => Except.ok ⟨[hitA], TotalField.absent⟩) 0 []

/-- C1 counterexample: a successful search whose oracle returns one hit but
no total-hit count reports `total = 0`, not the returned-result count 1, so
`total ≥ n` fails. -/
theorem search_total_fallback_zero_counterexample :
    c1NoTotalRun.1.isError = false
      ∧ c1NoTotalRun.1.structured? = some ⟨[hitToResult hitA], 0, "s1"⟩
      ∧ (c1NoTotalRun.1.structured?.map fun s => decide ((s.results.length : Int) ≤ s.total))
          = some false := by
  decide

/-! ### C2 -/

/-- C2 (amended): a successful Search with an explicit non-empty
`session_id` S that returned at least one document, followed by Cite(S),
yields one citation per stored document — the full context, not capped —
whose id, title, tags and relevance_score match the searched documents in
order. -/
theorem cite_after_search_matches
    (q S : String) (mr : Option Int) (resp : HitsResponse) (now : Nat) (store : Store)
    (hq : q ≠ "") (hS : S ≠ "") (hh : resp.hits ≠ []) :
    citeSources S (searchDocs q mr (some S) (fun _ => Except.ok resp) now store).2.1
        = .success (citeText ((resp.hits.map hitToResult).map toCitation))
            ((resp.hits.map hitToResult).map toCitation)
      ∧ ((resp.hits.map hitToResult).map toCitation).length
          = (resp.hits.map hitToResult).length
      ∧ (∀ i, (((resp.hits.map hitToResult).map toCitation).get? i).map Citation.id
            = ((resp.hits.map hitToResult).get? i).map SearchResult.id)
      ∧ (∀ i, (((resp.hits.map hitToResult).map toCitation).get? i).map Citation.title
            = ((resp.hits.map hitToResult).get? i).map SearchResult.title)
      ∧ (∀ i, (((resp.hits.map hitToResult).map toCitation).get? i).map Citation.tags
            = ((resp.hits.map hitToResult).get? i).map SearchResult.tags)
      ∧ (∀ i, (((resp.hits.map hitToResult).map toCitation).get? i).map
              Citation.relevance_score
            = ((resp.hits.map hitToResult).get? i).map SearchResult.score) := by
  have heff : effectiveId (some S) now = S := by simp [effectiveId, hS]
  have hrs : resp.hits.map hitToResult ≠ [] := by simpa using hh
  refine ⟨?_, by simp, ?_, ?_, ?_, ?_⟩
  · rw [searchDocs_ok q mr (some S) resp now store hq]
    simp only [heff]
    simp [citeSources, hS, Store.get_set, hrs]
  all_goals
    intro i
    simp only [List.get?_eq_getElem?, List.getElem?_map, Option.map_map]
    cases resp.hits[i]? <;> rfl

def c2EmptyRun : SearchOutcome × Store × List SearchRequest :=
  searchDocs "vector" (some 5) (some "sA")
    (fun _ => Except.ok ⟨[], TotalField.num 0⟩) 0 []

/-- C2 counterexample: a Search that succeeds with zero hits stores an
empty context, and the immediately following Cite of the same session id
fails with the SessionNotFound error instead of returning citations. -/
theorem cite_after_empty_search_counterexample :
    c2EmptyRun.1.isError = false
      ∧ (c2EmptyRun.1.structured?.map fun s => s.session_id) = some "sA"
      ∧ citeSources "sA" c2EmptyRun.2.1 = .error sessionNotFoundText
      ∧ (citeSources "sA" c2EmptyRun.2.1).citations? = none := by
  decide

theorem cite_after_search_matches_witness :
    citeSources "s1" (searchDocs "vector" (some 2) (some "s1")
          (fun _ => Except.ok respAB) 0 []).2.1
        = .success (citeText ((respAB.hits.map hitToResult).map toCitation))
            ((respAB.hits.map hitToResult).map toCitation)
      ∧ ((respAB.hits.map hitToResult).map toCitation).length
          = (respAB.hits.map hitToResult).length
      ∧ (∀ i, (((respAB.hits.map hitToResult).map toCitation).get? i).map Citation.id
            = ((respAB.hits.map hitToResult).get? i).map SearchResult.id)
      ∧ (∀ i, (((respAB.hits.map hitToResult).map toCitation).get? i).map Citation.title
            = ((respAB.hits.map hitToResult).get? i).map SearchResult.title)
      ∧ (∀ i, (((respAB.hits.map hitToResult).map toCitation).get? i).map Citation.tags
            = ((respAB.hits.map hitToResult).get? i).map SearchResult.tags)
      ∧ (∀ i, (((respAB.hits.map hitToResult).map toCitation).get? i).map
              Citation.relevance_score
            = ((respAB.hits.map hitToResult).get? i).map SearchResult.score) :=
  cite_after_search_matches "vector" "s1" (some 2) respAB 0 []
    (by decide) (by decide) (by decide)

/-! ### C3 -/

/-- The store component after a search whose oracle returns `resp`. -/
def searchStore (q : String) (mr : Option Int) (sid : Option String)
    (resp : HitsResponse) (now : Nat) (store : Store) : Store :=
  (searchDocs q mr sid (fun _ => Except.ok resp) now store).2.1

/-- C3: a second successful Search under the same session id replaces the
stored context entirely — the store maps the id to the results of the second search only, and any subsequent Cite or Summarize behaves exactly as it
would against a store holding only the results of the second search. -/
theorem second_search_overwrites
    (q1 q2 S : String) (mr1 mr2 : Option Int) (resp1 resp2 : HitsResponse)
    (now1 now2 : Nat) (store0 : Store) (question : String) (ml : Option Int)
    (synth : SynthRequest → Except String String)
    (_hq1 : q1 ≠ "") (hq2 : q2 ≠ "") (hS : S ≠ "") :
    (searchStore q2 mr2 (some S) resp2 now2
          (searchStore q1 mr1 (some S) resp1 now1 store0)).get S
        = some (resp2.hits.map hitToResult)
      ∧ citeSources S (searchStore q2 mr2 (some S) resp2 now2
            (searchStore q1 mr1 (some S) resp1 now1 store0))
          = citeSources S [(S, resp2.hits.map hitToResult)]
      ∧ (summarizeResults S question ml synth
            (searchStore q2 mr2 (some S) resp2 now2
              (searchStore q1 mr1 (some S) resp1 now1 store0))).1
          = (summarizeResults S question ml synth
              [(S, resp2.hits.map hitToResult)]).1
      ∧ (summarizeResults S question ml synth
            (searchStore q2 mr2 (some S) resp2 now2
              (searchStore q1 mr1 (some S) resp1 now1 store0))).2.2
          = (summarizeResults S question ml synth
              [(S, resp2.hits.map hitToResult)]).2.2 := by
  have heff : effectiveId (some S) now2 = S := by simp [effectiveId, hS]
  have h2 : (searchStore q2 mr2 (some S) resp2 now2
        (searchStore q1 mr1 (some S) resp1 now1 store0)).get S
      = some (resp2.hits.map hitToResult) := by
    unfold searchStore
    rw [searchDocs_ok q2 mr2 (some S) resp2 now2 _ hq2]
    simp [heff, Store.get_set]
  have hsingle : Store.get [(S, resp2.hits.map hitToResult)] S
      = some (resp2.hits.map hitToResult) := by
    simp [Store.get]
  have hget := h2.trans hsingle.symm
  exact ⟨h2, citeSources_congr S _ _ hget,
    (summarizeResults_congr S question ml synth _ _ hget).1,
    (summarizeResults_congr S question ml synth _ _ hget).2⟩

theorem second_search_overwrites_witness :
    (searchStore "beta" (some 5) (some "s1") ⟨[hitB], .num 1⟩ 1
          (searchStore "alpha" (some 5) (some "s1") ⟨[hitA], .num 1⟩ 0 [])).get "s1"
        = some ((⟨[hitB], .num 1⟩ : HitsResponse).hits.map hitToResult)
      ∧ citeSources "s1" (searchStore "beta" (some 5) (some "s1") ⟨[hitB], .num 1⟩ 1
            (searchStore "alpha" (some 5) (some "s1") ⟨[hitA], .num 1⟩ 0 []))
          = citeSources "s1" [("s1", (⟨[hitB], .num 1⟩ : HitsResponse).hits.map hitToResult)]
      ∧ (summarizeResults "s1" "why" none (fun _ => Except.ok "ans")
            (searchStore "beta" (some 5) (some "s1") ⟨[hitB], .num 1⟩ 1
              (searchStore "alpha" (some 5) (some "s1") ⟨[hitA], .num 1⟩ 0 []))).1
          = (summarizeResults "s1" "why" none (fun _ => Except.ok "ans")
              [("s1", (⟨[hitB], .num 1⟩ : HitsResponse).hits.map hitToResult)]).1
      ∧ (summarizeResults "s1" "why" none (fun _ => Except.ok "ans")
            (searchStore "beta" (some 5) (some "s1") ⟨[hitB], .num 1⟩ 1
              (searchStore "alpha" (some 5) (some "s1") ⟨[hitA], .num 1⟩ 0 []))).2.2
          = (summarizeResults "s1" "why" none (fun _ => Except.ok "ans")
              [("s1", (⟨[hitB], .num 1⟩ : HitsResponse).hits.map hitToResult)]).2.2 :=
  second_search_overwrites "alpha" "beta" "s1" (some 5) (some 5)
    ⟨[hitA], .num 1⟩ ⟨[hitB], .num 1⟩ 0 1 [] "why" none (fun _ => Except.ok "ans")
    (by decide) (by decide) (by decide)

/-! ### C4 -/

/-- C4: a raising oracle call is caught and surfaced as a non-fatal tool
error carrying the oracle message, with the store left unchanged (no put
occurs); the same holds for a failing synthesis call in Summarize. -/
theorem oracle_failure_caught
    (q : String) (mr : Option Int) (sid : Option String) (msg : String) (now : Nat)
    (store : Store) (sid2 question : String) (ml : Option Int) (msg2 : String)
    (store2 : Store) (rs : List SearchResult)
    (hq : q ≠ "") (hs : sid2 ≠ "") (hqn : question ≠ "")
    (hget : store2.get sid2 = some rs) (hrs : rs ≠ []) :
    searchDocs q mr sid (fun _ => Except.error msg) now store
        = (.error ("Error searching documents: " ++ msg), store,
            [⟨"documents", mr.getD 5, q⟩])
      ∧ summarizeResults sid2 question ml (fun _ => Except.error msg2) store2
          = (.error ("Error generating summary: " ++ msg2), store2,
              [⟨synthSystemText, synthUserText question (summaryContext rs),
                synthMaxTokens (ml.getD 500)⟩]) := by
  constructor
  · simp [searchDocs, hq]
  · simp [summarizeResults, hs, hqn, hget, hrs]

theorem oracle_failure_caught_witness :
    searchDocs "vector" (some 5) (some "s1") (fun _ => Except.error "boom") 0 []
        = (.error ("Error searching documents: " ++ "boom"), [],
            [⟨"documents", (some (5:Int)).getD 5, "vector"⟩])
      ∧ summarizeResults "s1" "why" none (fun _ => Except.error "down")
            [("s1", [hitToResult hitA])]
          = (.error ("Error generating summary: " ++ "down"), [("s1", [hitToResult hitA])],
              [⟨synthSystemText, synthUserText "why" (summaryContext [hitToResult hitA]),
                synthMaxTokens ((none : Option Int).getD 500)⟩]) :=
  oracle_failure_caught "vector" (some 5) (some "s1") "boom" 0 [] "s1" "why" none
    "down" [("s1", [hitToResult hitA])] [hitToResult hitA]
    (by decide) (by decide) (by decide) (by decide) (by decide)

/-! ### C5 -/

/-- C5: Summarize or Cite on a session id that is absent from the store or
maps to an empty context fails with the distinct SessionNotFound message
("call search_docs first"), makes no oracle call (the issued-request list
is empty) and leaves the store unchanged. -/
theorem missing_session_rejected_without_oracle
    (sid question : String) (ml : Option Int)
    (synth : SynthRequest → Except String String) (store : Store)
    (hs : sid ≠ "") (hq : question ≠ "")
    (hget : store.get sid = none ∨ store.get sid = some []) :
    summarizeResults sid question ml synth store
        = (.error sessionNotFoundText, store, [])
      ∧ citeSources sid store = .error sessionNotFoundText := by
  cases hget with
  | inl h => exact ⟨by simp [summarizeResults, hs, hq, h], by simp [citeSources, hs, h]⟩
  | inr h => exact ⟨by simp [summarizeResults, hs, hq, h], by simp [citeSources, hs, h]⟩

theorem missing_session_rejected_without_oracle_witness :
    summarizeResults "ghost" "why" none (fun _ => Except.ok "ans") []
        = (.error sessionNotFoundText, [], [])
      ∧ citeSources "ghost" [] = .error sessionNotFoundText :=
  missing_session_rejected_without_oracle "ghost" "why" none (fun _ => Except.ok "ans")
    [] (by decide) (by decide) (Or.inl (by decide))

/-! ### C6 -/

/-- C6: Summarize builds its prompt from at most the first five stored
documents (the prompt context of the full list equals that of its
five-element prefix), yet reports `sources_used` as the full stored
context size. -/
theorem summarize_caps_prompt_reports_full_count
    (sid question : String) (ml : Option Int) (content : String) (store : Store)
    (rs : List SearchResult)
    (hs : sid ≠ "") (hq : question ≠ "") (hget : store.get sid = some rs)
    (hrs : rs ≠ []) :
    summaryContext rs = summaryContext (rs.take 5)
      ∧ summarizeResults sid question ml (fun _ => Except.ok content) store
          = (.success ("AI generated summary: " ++ content)
              ⟨"AI generated summary: " ++ content, rs.length⟩, store,
              [⟨synthSystemText, synthUserText question (summaryContext (rs.take 5)),
                synthMaxTokens (ml.getD 500)⟩]) := by
  have hcap : summaryContext rs = summaryContext (rs.take 5) := by
    simp [summaryContext, List.take_take]
  refine ⟨hcap, ?_⟩
  rw [← hcap]
  simp [summarizeResults, hs, hq, hget, hrs]

def sixResults : List SearchResult :=
  [⟨1, "D1", "c1", [], 6⟩, ⟨2, "D2", "c2", [], 5⟩, ⟨3, "D3", "c3", [], 4⟩,
    ⟨4, "D4", "c4", [], 3⟩, ⟨5, "D5", "c5", [], 2⟩, ⟨6, "D6", "c6", [], 1⟩]

theorem summarize_caps_prompt_reports_full_count_witness :
    summaryContext sixResults = summaryContext (sixResults.take 5)
      ∧ summarizeResults "s6" "why" none (fun _ => Except.ok "ans")
            [("s6", sixResults)]
          = (.success ("AI generated summary: " ++ "ans")
              ⟨"AI generated summary: " ++ "ans", sixResults.length⟩,
              [("s6", sixResults)],
              [⟨synthSystemText,
                synthUserText "why" (summaryContext (sixResults.take 5)),
                synthMaxTokens ((none : Option Int).getD 500)⟩]) :=
  summarize_caps_prompt_reports_full_count "s6" "why" none "ans"
    [("s6", sixResults)] sixResults (by decide) (by decide) (by decide) (by decide)

/-! ### C7 -/

/-- C7: a required string field that is empty (the search query; the summarize
session_id or question; the cite session_id) is rejected with the per-tool
InvalidArgument message before any oracle call (the issued-request list is
empty) and without reading or writing the store (the response is the same
for every store, which is returned unchanged). -/
theorem invalid_argument_rejected
    (mr : Option Int) (sid : Option String)
    (oracle : SearchRequest → Except String HitsResponse) (now : Nat)
    (store store2 store3 : Store) (sid2 q2 : String) (ml : Option Int)
    (synth : SynthRequest → Except String String)
    (h : sid2 = "" ∨ q2 = "") :
    searchDocs "" mr sid oracle now store
        = (.error "Query parameter is required", store, [])
      ∧ summarizeResults sid2 q2 ml synth store2
          = (.error "Both session_id and question parameters are required", store2, [])
      ∧ citeSources "" store3 = .error "session_id parameter is required" :=
  ⟨by simp [searchDocs], by simp [summarizeResults, h], by simp [citeSources]⟩

theorem invalid_argument_rejected_witness :
    searchDocs "" (some 5) (some "s1") (fun _ => Except.ok respAB) 0 []
        = (.error "Query parameter is required", [], [])
      ∧ summarizeResults "" "why" none (fun _ => Except.ok "ans") []
          = (.error "Both session_id and question parameters are required", [], [])
      ∧ citeSources "" [] = .error "session_id parameter is required" :=
  invalid_argument_rejected (some 5) (some "s1") (fun _ => Except.ok respAB) 0
    [] [] [] "" "why" none (fun _ => Except.ok "ans") (Or.inl rfl)

/-! ### C8 -/

theorem digitChar_isDigit (d : Nat) (hd : d < 10) : (Nat.digitChar d).isDigit = true := by
  interval_cases d <;> decide

theorem pad2_digits (m : Nat) (hm : m < 100) :
    ∀ c ∈ (pad2 m).data, c.isDigit = true := by
  intro c hc
  simp only [pad2, List.mem_cons, List.mem_singleton, List.not_mem_nil, or_false] at hc
  rcases hc with h | h <;> subst h
  · exact digitChar_isDigit _ (by omega)
  · exact digitChar_isDigit _ (by omega)

theorem toFixed2_decomposition (x : ℚ) :
    ∃ body frac : String, toFixed2 x = body ++ "." ++ frac
      ∧ frac.length = 2 ∧ ∀ c ∈ frac.data, c.isDigit = true := by
  simp only [toFixed2]
  split_ifs with h
  · exact ⟨"-" ++ toString ((-(Int.fdiv (x.num * 200 + x.den) (2 * x.den))).toNat / 100),
      pad2 ((-(Int.fdiv (x.num * 200 + x.den) (2 * x.den))).toNat % 100),
      rfl, rfl, pad2_digits _ (Nat.mod_lt _ (by omega))⟩
  · exact ⟨toString ((Int.fdiv (x.num * 200 + x.den) (2 * x.den)).toNat / 100),
      pad2 ((Int.fdiv (x.num * 200 + x.den) (2 * x.den)).toNat % 100),
      rfl, rfl, pad2_digits _ (Nat.mod_lt _ (by omega))⟩

/-- C8: each line of the search narrative is built as 1-based rank, title,
score rendered by toFixed(2) — always with exactly two digits after the
decimal point — and the first 200 characters of the content followed by an
unconditional ellipsis: the excerpt never exceeds 200 characters, and when
the content is 200 characters or shorter the whole content appears,
ellipsis still appended. -/
theorem search_narrative_line_format
    (q : String) (mr : Option Int) (sid : Option String) (resp : HitsResponse)
    (now : Nat) (store : Store) (hq : q ≠ "") :
    (searchDocs q mr sid (fun _ => Except.ok resp) now store).1
        = .success (searchText (resp.hits.map hitToResult))
            ⟨resp.hits.map hitToResult, totalHits resp.total, effectiveId sid now⟩
      ∧ (∀ rs : List SearchResult, ∀ i,
          (mapWithIdx searchLine 0 rs).get? i
            = (rs.get? i).map fun r =>
                "[" ++ toString (i + 1) ++ "] " ++ r.title ++ " (score: "
                  ++ toFixed2 r.score ++ ")\n" ++ jsSubstring r.content 200 ++ "...")
      ∧ (∀ s : String, (jsSubstring s 200).length ≤ 200)
      ∧ (∀ s : String, s.length ≤ 200 → jsSubstring s 200 = s)
      ∧ (∀ x : ℚ, ∃ body frac : String, toFixed2 x = body ++ "." ++ frac
          ∧ frac.length = 2 ∧ ∀ c ∈ frac.data, c.isDigit = true) := by
  refine ⟨?_, ?_, ?_, ?_, toFixed2_decomposition⟩
  · rw [searchDocs_ok q mr sid resp now store hq]
  · intro rs i
    rw [get?_mapWithIdx searchLine rs 0 i]
    cases rs.get? i <;> simp [searchLine]
  · intro s
    have : (jsSubstring s 200).length = (s.data.take 200).length := rfl
    rw [this, List.length_take]
    omega
  · intro s hs
    have : s.data.take 200 = s.data := List.take_of_length_le hs
    simp only [jsSubstring, this]

theorem search_narrative_line_format_witness :
    (searchDocs "vector" (some 2) (some "s1") (fun _ => Except.ok respAB) 0 []).1
        = .success (searchText (respAB.hits.map hitToResult))
            ⟨respAB.hits.map hitToResult, totalHits respAB.total,
              effectiveId (some "s1") 0⟩
      ∧ (∀ rs : List SearchResult, ∀ i,
          (mapWithIdx searchLine 0 rs).get? i
            = (rs.get? i).map fun r =>
                "[" ++ toString (i + 1) ++ "] " ++ r.title ++ " (score: "
                  ++ toFixed2 r.score ++ ")\n" ++ jsSubstring r.content 200 ++ "...")
      ∧ (∀ s : String, (jsSubstring s 200).length ≤ 200)
      ∧ (∀ s : String, s.length ≤ 200 → jsSubstring s 200 = s)
      ∧ (∀ x : ℚ, ∃ body frac : String, toFixed2 x = body ++ "." ++ frac
          ∧ frac.length = 2 ∧ ∀ c ∈ frac.data, c.isDigit = true) :=
  search_narrative_line_format "vector" (some 2) (some "s1") respAB 0 [] (by decide)

/-! ### C9 -/

def c9MintedEmptyRun : SearchOutcome × Store × List SearchRequest :=
  searchDocs "vector" (some 5) none
    (fun _ => Except.ok ⟨[], TotalField.num 0⟩) 42 []

/-- C9 counterexample: a Search without session_id whose oracle returns
zero hits succeeds and reports the minted id, but Cite with that minted id
fails with SessionNotFound instead of succeeding. -/
theorem cite_minted_after_empty_counterexample :
    c9MintedEmptyRun.1.isError = false
      ∧ (c9MintedEmptyRun.1.structured?.map fun s => s.session_id)
          = some (mintedId 42)
      ∧ citeSources (mintedId 42) c9MintedEmptyRun.2.1 = .error sessionNotFoundText
      ∧ (citeSources (mintedId 42) c9MintedEmptyRun.2.1).citations? = none := by
  decide

/-- C9 (amended): Search without session_id mints `session_<now>` and
returns it; provided the search returned at least one document, Cite with
the minted id succeeds with the citations of the stored documents, while Cite
with any other non-empty id that is not in the store fails with
SessionNotFound (an empty id fails earlier, with InvalidArgument). -/
theorem minted_session_cite
    (q : String) (mr : Option Int) (resp : HitsResponse) (now : Nat) (store : Store)
    (hq : q ≠ "") (hh : resp.hits ≠ []) :
    ((searchDocs q mr none (fun _ => Except.ok resp) now store).1.structured?.map
        fun s => s.session_id) = some (mintedId now)
      ∧ citeSources (mintedId now)
            (searchDocs q mr none (fun _ => Except.ok resp) now store).2.1
          = .success (citeText ((resp.hits.map hitToResult).map toCitation))
              ((resp.hits.map hitToResult).map toCitation)
      ∧ ∀ other : String, other ≠ "" → other ≠ mintedId now →
          store.get other = none →
          citeSources other
              (searchDocs q mr none (fun _ => Except.ok resp) now store).2.1
            = .error sessionNotFoundText := by
  have hrs : resp.hits.map hitToResult ≠ [] := by simpa using hh
  rw [searchDocs_ok q mr none resp now store hq]
  refine ⟨rfl, ?_, ?_⟩
  · simp [citeSources, mintedId_ne_empty now, Store.get_set, hrs, effectiveId]
  · intro other h1 h2 h3
    simp [citeSources, h1, Store.get_set, effectiveId, Ne.symm h2, h3]

theorem minted_session_cite_witness :
    ((searchDocs "vector" (some 2) none (fun _ => Except.ok respAB) 7 []).1.structured?.map
        fun s => s.session_id) = some (mintedId 7)
      ∧ citeSources (mintedId 7)
            (searchDocs "vector" (some 2) none (fun _ => Except.ok respAB) 7 []).2.1
          = .success (citeText ((respAB.hits.map hitToResult).map toCitation))
              ((respAB.hits.map hitToResult).map toCitation)
      ∧ ∀ other : String, other ≠ "" → other ≠ mintedId 7 →
          Store.get [] other = none →
          citeSources other
              (searchDocs "vector" (some 2) none (fun _ => Except.ok respAB) 7 []).2.1
            = .error sessionNotFoundText :=
  minted_session_cite "vector" (some 2) respAB 7 [] (by decide) (by decide)

/-! ### C10 -/

/-- C10: supplying the empty string as session_id behaves exactly like
supplying none — the whole call is equal to the id-less call, a fresh
timestamp-derived id is minted, returned and used as the storage key, and
nothing is ever stored under the empty-string key. -/
theorem empty_session_id_minted
    (q : String) (mr : Option Int)
    (oracle : SearchRequest → Except String HitsResponse)
    (resp : HitsResponse) (now : Nat) (store : Store) (hq : q ≠ "") :
    searchDocs q mr (some "") oracle now store = searchDocs q mr none oracle now store
      ∧ ((searchDocs q mr (some "") (fun _ => Except.ok resp) now store).1.structured?.map
            fun s => s.session_id) = some (mintedId now)
      ∧ (searchDocs q mr (some "") (fun _ => Except.ok resp) now store).2.1.get
            (mintedId now) = some (resp.hits.map hitToResult)
      ∧ (searchDocs q mr (some "") (fun _ => Except.ok resp) now store).2.1.get ""
          = store.get ""
      ∧ mintedId now ≠ "" := by
  have heff : effectiveId (some "") now = mintedId now := by simp [effectiveId]
  refine ⟨?_, ?_, ?_, ?_, mintedId_ne_empty now⟩
  · cases horacle : oracle ⟨"documents", mr.getD 5, q⟩ <;>
      simp [searchDocs, effectiveId, horacle]
  · rw [searchDocs_ok q mr (some "") resp now store hq, heff]
    rfl
  · rw [searchDocs_ok q mr (some "") resp now store hq, heff]
    simp [Store.get_set]
  · rw [searchDocs_ok q mr (some "") resp now store hq, heff]
    simp [Store.get_set, mintedId_ne_empty now]

theorem empty_session_id_minted_witness :
    searchDocs "vector" (some 2) (some "") (fun _ => Except.ok respAB) 9 []
        = searchDocs "vector" (some 2) none (fun _ => Except.ok respAB) 9 []
      ∧ ((searchDocs "vector" (some 2) (some "") (fun _ => Except.ok respAB) 9 []).1.structured?.map
            fun s => s.session_id) = some (mintedId 9)
      ∧ (searchDocs "vector" (some 2) (some "") (fun _ => Except.ok respAB) 9 []).2.1.get
            (mintedId 9) = some (respAB.hits.map hitToResult)
      ∧ (searchDocs "vector" (some 2) (some "") (fun _ => Except.ok respAB) 9 []).2.1.get ""
          = Store.get [] ""
      ∧ mintedId 9 ≠ "" :=
  empty_session_id_minted "vector" (some 2) (fun _ => Except.ok respAB) respAB 9 []
    (by decide)

end RagMcp
